import Mathlib

/-!
Verification development for `metagit.py`: a shallow embedding of the
repository-backend core (the `GitRepository` / `GitSvnRepository` classes,
their `call` / `fetch` / `clone` / `status` operations and the `Main.fetch`
fleet loop), together with theorems settling the specification claims.

The external world is modelled explicitly:
* the filesystem check `os.path.isdir(self.path)` becomes an `isdir : Bool`
  argument,
* the external `git` executable becomes an `Oracle : List String → ProcResult`
  mapping a full command line to its exit code and captured output,
* observable side effects (subprocess invocations, stderr forwarded by
  `call`, `warning(...)` messages, `print(...)` notices) are collected in a
  `Trace`,
* Python exceptions become an `Except PyError` result.  `UserMessage` is the
  exception class defined in the source; the identifier `RepoMessage` raised
  by the clone error paths is not defined anywhere in the module, so those
  `raise` statements themselves raise `NameError` — modelled by
  `PyError.nameError "RepoMessage"`.
-/

/-- Exceptions that the modelled code can raise.  `userMessage` is the
`UserMessage` class of the source (message plus optional repository);
`nameError n` models the Python `NameError` raised when an undefined
identifier `n` is evaluated (this happens for `RepoMessage`). -/
inductive PyError where
  | userMessage (msg : String) (repo : Option String)
  | nameError (n : String)
deriving DecidableEq

/-- Python `str(e)`: `UserMessage.__str__` returns `self.msg`;
`str(NameError)` is the interpreter message. -/
def PyError.str : PyError → String
  | .userMessage msg _ => msg
  | .nameError n => "name \x27" ++ n ++ "\x27 is not defined"

/-- Result of one run of the external executable: exit code plus the raw
text captured on stdout and stderr. -/
structure ProcResult where
  exitCode : Int
  stdout : String
  stderr : String
deriving DecidableEq

/-- The external `git` executable, as a function from the full command line
(`git_cmd` in the source) to its outcome. -/
abbrev Oracle := List String → ProcResult

/-- Observable side effects of a run: every subprocess command line in
invocation order, stderr text forwarded by `call` on strict success,
`warning(...)` messages, and `print(...)` notices. -/
structure Trace where
  invocations : List (List String) := []
  forwardedStderr : List String := []
  warnings : List String := []
  printed : List String := []
deriving DecidableEq

def Trace.empty : Trace := {}

instance : Append Trace :=
  ⟨fun a b =>
    { invocations := a.invocations ++ b.invocations
      forwardedStderr := a.forwardedStderr ++ b.forwardedStderr
      warnings := a.warnings ++ b.warnings
      printed := a.printed ++ b.printed }⟩

/-- Model of `RepoStatus` construction: `exists` (here `existsFlag`) defaults to `True`,
all counts to `0`.  The field `uncommited_changes` keeps the source's
spelling. -/
structure RepoStatus where
  existsFlag : Bool := true
  untracked_files : Nat := 0
  uncommited_changes : Nat := 0
  unpushed_commits : Nat := 0
  unmerged_commits : Nat := 0
deriving DecidableEq

/-- Model of `RepoStatus.nonExistent()`: a fresh default status with `exists = False`. -/
def RepoStatus.nonExistent : RepoStatus := { existsFlag := false }

/-- The two repository classes bound by `Config.build_repo_objects`:
`git ↦ GitRepository`, `gitSvn ↦ GitSvnRepository`. -/
inductive RepoKind where
  | git
  | gitSvn
deriving DecidableEq

/-- One configured repository: `tilde_path`, the expanded `path`, the
settings dictionary `config` (unique keys), and the bound class. -/
structure Repo where
  tilde_path : String
  path : String
  config : List (String × String)
  kind : RepoKind

/-- Model of `os.path.join(p, q)` for the cases arising here: absolute `q` wins,
otherwise the parts are joined with a single `/`. -/
def osPathJoin (p q : String) : String :=
  if q.data.headD ' ' = '/' then q
  else if p = "" then q
  else if p.data.getLast? = some '/' then p ++ q
  else p ++ "/" ++ q

/-- Python characters treated as line boundaries by `str.splitlines`. -/
def isLineBoundary (c : Char) : Bool :=
  c == '\n' || c == '\r' || c == '\x0b' || c == '\x0c' ||
  c == '\x1c' || c == '\x1d' || c == '\x1e' || c == '\x85' ||
  c == '\u2028' || c == '\u2029'

/-- Worker for `pySplitlines`: `acc` holds the current line reversed. -/
def pySplitlinesAux : List Char → List Char → List String
  | [], acc => if acc.isEmpty then [] else [String.mk acc.reverse]
  | '\r' :: '\n' :: rest, acc => String.mk acc.reverse :: pySplitlinesAux rest []
  | c :: rest, acc =>
    if isLineBoundary c then String.mk acc.reverse :: pySplitlinesAux rest []
    else pySplitlinesAux rest (c :: acc)

/-- Python `str.splitlines()`: split at line boundaries (with `\r\n` as a
single boundary), no trailing empty line. -/
def pySplitlines (s : String) : List String :=
  pySplitlinesAux s.data []

/-- Python `s.rstrip('\n')`: drop trailing newline characters. -/
def rstripNewlines (s : String) : String :=
  String.mk (s.data.reverse.dropWhile (fun c => c == '\n')).reverse

/-- Model of `len(s.replace('\n', ''))`: the number of characters of `s` that are
not newlines. -/
def lenNoNewlines (s : String) : Nat :=
  (s.data.filter (fun c => !(c == '\n'))).length

/-- The command line built at the top of `GitRepository.call`: `['git']`,
then — unless the subcommand is `clone` or `svn clone`
(`args[0] != 'clone' and args[0:2] != ('svn','clone')`) — the two
path-scoping options, then the given arguments.  (`args.headD ""` stands
for Python's `args[0]`; `call` is never invoked without arguments.) -/
def gitCmd (r : Repo) (args : List String) : List String :=
  let base := ["git"]
  let base :=
    if args.headD "" ≠ "clone" ∧ args.take 2 ≠ ["svn", "clone"] then
      base ++ ["--work-tree=" ++ r.path, "--git-dir=" ++ osPathJoin r.path ".git"]
    else base
  base ++ args

/-- The `UserMessage` text raised by `call` on a strict non-zero exit:
`'Command »{}« failed with exit code {}: »{}«'`. -/
def cmdFailedMsg (cmd : List String) (exitCode : Int) (errStr : String) : String :=
  "Command »" ++ String.intercalate " " cmd ++ "« failed with exit code " ++
  toString exitCode ++ ": »" ++ errStr ++ "«"

/-- The two return shapes of `GitRepository.call`: `return exit_code, out`
when `may_fail`, plain `return out` on strict success.  `out` is `none`
when stdout was not captured (`stdout=None`). -/
inductive CallValue where
  | pair (exitCode : Int) (out : Option String)
  | out (out : Option String)
deriving DecidableEq

/-- The captured stdout text of a call result; at every call site that
reads it, stdout was captured (`stdout=subprocess.PIPE`), so the option is
`some` and the default is never used. -/
def CallValue.stdoutStr : CallValue → String
  | .pair _ o => o.getD ""
  | .out o => o.getD ""

/-- Model of `GitRepository.call(*args, stdout=…, stderr=…, may_fail=…)`.
`captureStdout` is `stdout=subprocess.PIPE` (vs the default `None`);
`captureStderr` is the default `stderr=subprocess.PIPE` (vs `None` as
passed by the clone call sites); `mayFail` is `may_fail`.
On `may_fail` the pair `(exit_code, out)` is returned; otherwise a
non-zero exit raises `UserMessage` (with `err_str = ''` when stderr was
not captured), and a zero exit forwards any captured stderr to the
diagnostic stream and returns `out`. -/
def Repo.call (r : Repo) (oracle : Oracle) (args : List String)
    (captureStdout captureStderr mayFail : Bool) :
    Except PyError CallValue × Trace :=
  let cmd := gitCmd r args
  let res := oracle cmd
  let out : Option String := if captureStdout then some res.stdout else none
  if mayFail then
    (Except.ok (CallValue.pair res.exitCode out), { invocations := [cmd] })
  else if res.exitCode ≠ 0 then
    (Except.error (PyError.userMessage
        (cmdFailedMsg cmd res.exitCode
          (if captureStderr then rstripNewlines res.stderr else "")) none),
     { invocations := [cmd] })
  else
    (Except.ok (CallValue.out out),
     { invocations := [cmd],
       forwardedStderr := if captureStderr then [res.stderr] else [] })

/-- Model of `GitRepository.main_branch`: `self.config.get('branch', 'master')`. -/
def Repo.main_branch (r : Repo) : String :=
  (r.config.lookup "branch").getD "master"

/-- Model of `upstream_branch`: `'@{u}'` for `GitRepository`, overridden to
`'git-svn'` in `GitSvnRepository`. -/
def Repo.upstream_branch (r : Repo) : String :=
  match r.kind with
  | .git => "@\x7bu\x7d"
  | .gitSvn => "git-svn"

/-- Model of `fetch`: overridden per class; a no-op unless the path is a directory,
otherwise `self.call('fetch')` resp. `self.call('svn', 'fetch')` under the
strict policy with stdout not captured. -/
def Repo.fetch (r : Repo) (isdir : Bool) (oracle : Oracle) :
    Except PyError Unit × Trace :=
  if isdir then
    let c :=
      match r.kind with
      | .git => Repo.call r oracle ["fetch"] false true false
      | .gitSvn => Repo.call r oracle ["svn", "fetch"] false true false
    (c.1.map (fun _ => ()), c.2)
  else (Except.ok (), {})

/-- Model of `GitRepository.clone` and `GitSvnRepository.clone`: return immediately if
the path exists; evaluating the undefined name `RepoMessage` raises
`NameError` when `origin` is missing (both classes) or when the branch is
not `master` (`GitSvnRepository`); otherwise run the variant's clone
subcommand with `stderr=None`. -/
def Repo.clone (r : Repo) (isdir : Bool) (oracle : Oracle) :
    Except PyError Unit × Trace :=
  match r.kind with
  | .git =>
    if isdir then (Except.ok (), {})
    else
      match r.config.lookup "origin" with
      | none => (Except.error (PyError.nameError "RepoMessage"), {})
      | some origin =>
        let c :=
          Repo.call r oracle ["clone", "-b", r.main_branch, origin, r.path]
            false false false
        (c.1.map (fun _ => ()), c.2)
  | .gitSvn =>
    if isdir then (Except.ok (), {})
    else
      match r.config.lookup "origin" with
      | none => (Except.error (PyError.nameError "RepoMessage"), {})
      | some origin =>
        if r.main_branch ≠ "master" then
          (Except.error (PyError.nameError "RepoMessage"), {})
        else
          let c :=
            Repo.call r oracle ["svn", "clone", origin, r.path] false false false
          (c.1.map (fun _ => ()), c.2)

/-- One loop step of the status-line partition in `GitRepository.status`:
`if line[0:2] == '??': untracked_files += 1 else: uncommited_changes += 1`. -/
def isUntrackedLine (l : String) : Bool :=
  l.data.take 2 == ['?', '?']

def countStatusLine (rs : RepoStatus) (line : String) : RepoStatus :=
  if isUntrackedLine line then
    { rs with untracked_files := rs.untracked_files + 1 }
  else
    { rs with uncommited_changes := rs.uncommited_changes + 1 }

/-- The trace of `warning("Warning: Can not count commits: {}".format(e))`. -/
def warnTrace (e : PyError) : Trace :=
  { warnings := ["Warning: Can not count commits: " ++ e.str] }

/-- Model of `GitRepository.status` (shared by both classes; `upstream_branch` is
virtual): nonexistent paths short-circuit; otherwise the porcelain status
lines are partitioned, and the two `log --format=format:X` range queries
fill the ahead/behind counts inside a `try` whose `except` emits one
warning.  Note that `rs.unmerged_commits` is assigned before the second
query runs, so a failure of only the second query leaves the first count
in place. -/
def Repo.status (r : Repo) (isdir : Bool) (oracle : Oracle) :
    Except PyError RepoStatus × Trace :=
  if !isdir then (Except.ok RepoStatus.nonExistent, {})
  else
    match Repo.call r oracle ["status", "--porcelain=1"] true true false with
    | (Except.error e, tr0) => (Except.error e, tr0)
    | (Except.ok v, tr0) =>
      let lines := pySplitlines v.stdoutStr
      let rs := lines.foldl countStatusLine {}
      match Repo.call r oracle
          ["log", "--format=format:X", r.main_branch ++ ".." ++ r.upstream_branch]
          true true false with
      | (Except.error e, tr1) => (Except.ok rs, tr0 ++ tr1 ++ warnTrace e)
      | (Except.ok v1, tr1) =>
        let rs := { rs with unmerged_commits := lenNoNewlines v1.stdoutStr }
        match Repo.call r oracle
            ["log", "--format=format:X", r.upstream_branch ++ ".." ++ r.main_branch]
            true true false with
        | (Except.error e, tr2) => (Except.ok rs, tr0 ++ tr1 ++ tr2 ++ warnTrace e)
        | (Except.ok v2, tr2) =>
          (Except.ok { rs with unpushed_commits := lenNoNewlines v2.stdoutStr },
           tr0 ++ tr1 ++ tr2)

/-- One repository together with its bit of world: whether its path is a
directory, and how the executable behaves for it. -/
structure RepoWorld where
  repo : Repo
  isdir : Bool
  oracle : Oracle

/-- Model of `Main.fetch`: iterate the registry; existing repositories are fetched,
missing ones are cloned when `-c` was given and otherwise reported with a
`print`.  An exception aborts the loop (it propagates to the command dispatcher). -/
def Main.fetch : List RepoWorld → Bool → Except PyError Unit × Trace
  | [], _ => (Except.ok (), {})
  | w :: rest, cloneIfNecessary =>
    if w.isdir then
      let c := Repo.fetch w.repo w.isdir w.oracle
      match c.1 with
      | Except.error e => (Except.error e, c.2)
      | Except.ok _ =>
        let k := Main.fetch rest cloneIfNecessary
        (k.1, c.2 ++ k.2)
    else if cloneIfNecessary then
      let c := Repo.clone w.repo w.isdir w.oracle
      match c.1 with
      | Except.error e => (Except.error e, c.2)
      | Except.ok _ =>
        let k := Main.fetch rest cloneIfNecessary
        (k.1, c.2 ++ k.2)
    else
      let k := Main.fetch rest cloneIfNecessary
      (k.1, { printed := [w.repo.tilde_path ++ " does not exist"] } ++ k.2)

/-- A command line whose subcommand is one of the two clone forms. -/
def isCloneInvocation (cmd : List String) : Bool :=
  cmd.take 2 == ["git", "clone"] || cmd.take 3 == ["git", "svn", "clone"]

deriving instance DecidableEq for Except

/-- The command line of the porcelain working-tree status query in `status`. -/
def statusCmd (r : Repo) : List String := gitCmd r ["status", "--porcelain=1"]

/-- The command line of the first range query (`mainBranch..upstreamRef`). -/
def logCmdUnmerged (r : Repo) : List String :=
  gitCmd r ["log", "--format=format:X", r.main_branch ++ ".." ++ r.upstream_branch]

/-- The command line of the second range query (`upstreamRef..mainBranch`). -/
def logCmdUnpushed (r : Repo) : List String :=
  gitCmd r ["log", "--format=format:X", r.upstream_branch ++ ".." ++ r.main_branch]

def repoPlain : Repo :=
  { tilde_path := "~/proj", path := "/home/user/proj", config := [], kind := .git }

def oracleQuiet : Oracle := fun _ => { exitCode := 0, stdout := "", stderr := "" }

def repoNoOrigin : Repo :=
  { tilde_path := "~/proj", path := "/home/user/proj", config := [], kind := .git }

def repoNoOriginSvn : Repo :=
  { tilde_path := "~/proj", path := "/home/user/proj", config := [], kind := .gitSvn }

def repoSvnBranch : Repo :=
  { tilde_path := "~/svnproj", path := "/home/user/svnproj",
    config := [("origin", "https://svn.example.org/repo"), ("branch", "devel")],
    kind := .gitSvn }

def oracleC2w : Oracle := fun cmd =>
  if cmd = logCmdUnmerged repoPlain then
    { exitCode := 1, stdout := "", stderr := "fatal: no upstream" }
  else { exitCode := 0, stdout := "", stderr := "" }

def oracleC2ce : Oracle := fun cmd =>
  if cmd = logCmdUnpushed repoPlain then
    { exitCode := 1, stdout := "", stderr := "fatal: no upstream" }
  else if cmd = logCmdUnmerged repoPlain then
    { exitCode := 0, stdout := "X\nX\nX", stderr := "" }
  else { exitCode := 0, stdout := "", stderr := "" }

def oracleC5w : Oracle := fun cmd =>
  if cmd = statusCmd repoPlain then
    { exitCode := 0, stdout := "?? a.txt\n M b.txt\n?? c.txt", stderr := "" }
  else { exitCode := 0, stdout := "", stderr := "" }

def oracleC5ce : Oracle := fun cmd =>
  if cmd = statusCmd repoPlain then
    { exitCode := 0, stdout := "?? a.txt\n\n M b.txt", stderr := "" }
  else { exitCode := 0, stdout := "", stderr := "" }

def oracleFailing : Oracle := fun _ =>
  { exitCode := 2, stdout := "partial output", stderr := "fatal: broken\n" }

def oracleStderrA : Oracle := fun _ =>
  { exitCode := 2, stdout := "out", stderr := "stderr message A" }

def oracleStderrB : Oracle := fun _ =>
  { exitCode := 2, stdout := "out", stderr := "stderr message B" }

@[simp] lemma Trace.append_invocations (a b : Trace) :
    (a ++ b).invocations = a.invocations ++ b.invocations := rfl

@[simp] lemma Trace.append_forwardedStderr (a b : Trace) :
    (a ++ b).forwardedStderr = a.forwardedStderr ++ b.forwardedStderr := rfl

@[simp] lemma Trace.append_warnings (a b : Trace) :
    (a ++ b).warnings = a.warnings ++ b.warnings := rfl

@[simp] lemma Trace.append_printed (a b : Trace) :
    (a ++ b).printed = a.printed ++ b.printed := rfl

lemma call_invocations (r : Repo) (oracle : Oracle) (args : List String)
    (cs ce mf : Bool) :
    (Repo.call r oracle args cs ce mf).2.invocations = [gitCmd r args] := by
  unfold Repo.call
  dsimp only
  split
  · rfl
  · split <;> rfl

lemma call_ok (r : Repo) (oracle : Oracle) (args : List String) (cs ce : Bool)
    (h : (oracle (gitCmd r args)).exitCode = 0) :
    Repo.call r oracle args cs ce false =
      (Except.ok (CallValue.out (if cs then some (oracle (gitCmd r args)).stdout else none)),
       { invocations := [gitCmd r args],
         forwardedStderr := if ce then [(oracle (gitCmd r args)).stderr] else [] }) := by
  unfold Repo.call
  simp [h]

lemma call_err (r : Repo) (oracle : Oracle) (args : List String) (cs ce : Bool)
    (h : (oracle (gitCmd r args)).exitCode ≠ 0) :
    Repo.call r oracle args cs ce false =
      (Except.error (PyError.userMessage
          (cmdFailedMsg (gitCmd r args) (oracle (gitCmd r args)).exitCode
            (if ce then rstripNewlines (oracle (gitCmd r args)).stderr else "")) none),
       { invocations := [gitCmd r args] }) := by
  unfold Repo.call
  simp [h]

lemma call_mayFail (r : Repo) (oracle : Oracle) (args : List String) (cs ce : Bool) :
    Repo.call r oracle args cs ce true =
      (Except.ok (CallValue.pair (oracle (gitCmd r args)).exitCode
          (if cs then some (oracle (gitCmd r args)).stdout else none)),
       { invocations := [gitCmd r args] }) := by
  unfold Repo.call
  simp

lemma workTree_short_ne (p s : String) (hs : s.length < 12) :
    ("--work-tree=" ++ p) ≠ s := by
  intro h
  have hl := congrArg String.length h
  rw [String.length_append] at hl
  have h12 : ("--work-tree=" : String).length = 12 := rfl
  omega

lemma foldl_countStatusLine (lines : List String) (rs : RepoStatus) :
    lines.foldl countStatusLine rs =
      { rs with
        untracked_files := rs.untracked_files + lines.countP isUntrackedLine
        uncommited_changes :=
          rs.uncommited_changes + lines.countP (fun l => !isUntrackedLine l) } := by
  induction lines generalizing rs with
  | nil => simp
  | cons l ls ih =>
    obtain ⟨e, u, c, p, m⟩ := rs
    simp only [List.foldl_cons, countStatusLine, List.countP_cons, ih]
    cases h : isUntrackedLine l <;>
      simp [h, RepoStatus.mk.injEq] <;> omega

lemma countP_add_countP_not (l : List String) (p : String → Bool) :
    l.countP p + l.countP (fun a => !p a) = l.length := by
  induction l with
  | nil => simp
  | cons a t ih =>
    by_cases h : p a <;> simp [List.countP_cons, h] <;> omega

lemma status_exists_spec (r : Repo) (oracle : Oracle)
    (h0 : (oracle (statusCmd r)).exitCode = 0) :
    ∃ rs : RepoStatus,
      (Repo.status r true oracle).1 = Except.ok rs
      ∧ rs.existsFlag = true
      ∧ rs.untracked_files =
          (pySplitlines (oracle (statusCmd r)).stdout).countP isUntrackedLine
      ∧ rs.uncommited_changes =
          (pySplitlines (oracle (statusCmd r)).stdout).countP (fun l => !isUntrackedLine l)
      ∧ ((oracle (logCmdUnmerged r)).exitCode ≠ 0 →
          rs.unmerged_commits = 0 ∧ rs.unpushed_commits = 0
          ∧ (Repo.status r true oracle).2.warnings.length = 1)
      ∧ ((oracle (logCmdUnmerged r)).exitCode = 0 →
            (oracle (logCmdUnpushed r)).exitCode ≠ 0 →
          rs.unmerged_commits = lenNoNewlines (oracle (logCmdUnmerged r)).stdout
          ∧ rs.unpushed_commits = 0
          ∧ (Repo.status r true oracle).2.warnings.length = 1)
      ∧ ((oracle (logCmdUnmerged r)).exitCode = 0 →
            (oracle (logCmdUnpushed r)).exitCode = 0 →
          rs.unmerged_commits = lenNoNewlines (oracle (logCmdUnmerged r)).stdout
          ∧ rs.unpushed_commits = lenNoNewlines (oracle (logCmdUnpushed r)).stdout
          ∧ (Repo.status r true oracle).2.warnings = []) := by
  simp only [statusCmd] at h0 ⊢
  simp only [logCmdUnmerged, logCmdUnpushed]
  by_cases h1 :
      (oracle (gitCmd r
        ["log", "--format=format:X", r.main_branch ++ ".." ++ r.upstream_branch])).exitCode = 0
  · by_cases h2 :
        (oracle (gitCmd r
          ["log", "--format=format:X", r.upstream_branch ++ ".." ++ r.main_branch])).exitCode = 0
    · simp only [Repo.status, call_ok _ _ _ _ _ h0, call_ok _ _ _ _ _ h1,
        call_ok _ _ _ _ _ h2]
      refine ⟨_, rfl, ?_⟩
      simp [foldl_countStatusLine, h1, h2, CallValue.stdoutStr]
    · simp only [Repo.status, call_ok _ _ _ _ _ h0, call_ok _ _ _ _ _ h1,
        call_err _ _ _ _ _ h2]
      refine ⟨_, rfl, ?_⟩
      simp [foldl_countStatusLine, h1, h2, warnTrace, CallValue.stdoutStr]
  · simp only [Repo.status, call_ok _ _ _ _ _ h0, call_err _ _ _ _ _ h1]
    refine ⟨_, rfl, ?_⟩
    simp [foldl_countStatusLine, h1, warnTrace, CallValue.stdoutStr]

lemma gitCmd_cons (r : Repo) (a : String) (tl : List String) :
    gitCmd r (a :: tl) =
      if a = "clone" ∨ (a :: tl).take 2 = ["svn", "clone"] then "git" :: a :: tl
      else
        "git" :: ("--work-tree=" ++ r.path) ::
          ("--git-dir=" ++ osPathJoin r.path ".git") :: a :: tl := by
  unfold gitCmd
  dsimp only [List.headD_cons]
  by_cases h : a = "clone" ∨ (a :: tl).take 2 = ["svn", "clone"]
  · have hn : ¬(a ≠ "clone" ∧ (a :: tl).take 2 ≠ ["svn", "clone"]) := by tauto
    rw [if_neg hn, if_pos h]
    rfl
  · push_neg at h
    rw [if_pos h]
    have hn : ¬(a = "clone" ∨ (a :: tl).take 2 = ["svn", "clone"]) := by tauto
    rw [if_neg hn]
    rfl

lemma isClone_fetchCmd (r : Repo) : isCloneInvocation (gitCmd r ["fetch"]) = false := by
  rw [gitCmd_cons, if_neg (by decide)]
  simp [isCloneInvocation]
  exact ⟨workTree_short_ne r.path "clone" (by decide),
         fun hsvn => absurd hsvn (workTree_short_ne r.path "svn" (by decide))⟩

lemma isClone_svnFetchCmd (r : Repo) :
    isCloneInvocation (gitCmd r ["svn", "fetch"]) = false := by
  rw [gitCmd_cons, if_neg (by decide)]
  simp [isCloneInvocation]
  exact ⟨workTree_short_ne r.path "clone" (by decide),
         fun hsvn => absurd hsvn (workTree_short_ne r.path "svn" (by decide))⟩

lemma fetch_true_invocations (r : Repo) (oracle : Oracle) :
    (Repo.fetch r true oracle).2.invocations =
      [gitCmd r (match r.kind with | .git => ["fetch"] | .gitSvn => ["svn", "fetch"])] := by
  obtain ⟨tp, p, cfg, k⟩ := r
  cases k <;> simp [Repo.fetch, call_invocations]

lemma mainFetch_no_clone (ws : List RepoWorld) :
    ∀ cmd ∈ (Main.fetch ws false).2.invocations, isCloneInvocation cmd = false := by
  induction ws with
  | nil =>
    intro cmd h
    simp [Main.fetch] at h
  | cons w rest ih =>
    intro cmd hmem
    rw [Main.fetch] at hmem
    by_cases hd : w.isdir
    · rw [if_pos hd, hd] at hmem
      dsimp only at hmem
      have hinv := fetch_true_invocations w.repo w.oracle
      cases hc : (Repo.fetch w.repo true w.oracle).1 with
      | error e =>
        rw [hc] at hmem
        dsimp only at hmem
        rw [hinv] at hmem
        rcases List.mem_singleton.mp hmem with rfl
        cases hk : w.repo.kind
        · exact isClone_fetchCmd w.repo
        · exact isClone_svnFetchCmd w.repo
      | ok u =>
        rw [hc] at hmem
        dsimp only [Trace.append_invocations] at hmem
        rw [hinv] at hmem
        rcases List.mem_append.mp hmem with hmem | hmem
        · rcases List.mem_singleton.mp hmem with rfl
          cases hk : w.repo.kind
          · exact isClone_fetchCmd w.repo
          · exact isClone_svnFetchCmd w.repo
        · exact ih cmd hmem
    · rw [if_neg hd] at hmem
      rw [if_neg (by simp : ¬(false : Bool) = true)] at hmem
      dsimp only [Trace.append_invocations] at hmem
      rw [List.nil_append] at hmem
      exact ih cmd hmem

/-- Claim C1: for every repository whose local path is not a directory,
`status()` returns a `RepoStatus` with `exists = false` and all four counts
(`untracked_files`, `uncommited_changes`, `unpushed_commits`,
`unmerged_commits`) equal to zero, and invokes no subprocess (the trace is
empty, so in particular `invocations = []`). -/
theorem c1_status_nonexistent (r : Repo) (oracle : Oracle) :
    Repo.status r false oracle = (Except.ok RepoStatus.nonExistent, Trace.empty)
    ∧ RepoStatus.nonExistent =
      { existsFlag := false, untracked_files := 0, uncommited_changes := 0,
        unpushed_commits := 0, unmerged_commits := 0 } := ⟨rfl, rfl⟩

/-- Claim C2 (amended): for every existing repository whose working-tree
status query succeeds, if either of the two ahead/behind range queries
fails, `status()` still returns successfully and exactly one warning is
emitted; `unpushed_commits` always remains at its zero default, and
`unmerged_commits` remains zero when the first query
(`mainBranch..upstreamRef`) is the one that fails.  (The claim as frozen
says both counts remain zero whenever either query fails; that is false
when only the second query fails, because `rs.unmerged_commits` has
already been assigned — see `c2_counterexample`.) -/
theorem c2_divergence_failure_tolerated (r : Repo) (oracle : Oracle)
    (h0 : (oracle (statusCmd r)).exitCode = 0)
    (h1 : (oracle (logCmdUnmerged r)).exitCode ≠ 0
        ∨ (oracle (logCmdUnpushed r)).exitCode ≠ 0) :
    ∃ rs : RepoStatus,
      (Repo.status r true oracle).1 = Except.ok rs
      ∧ rs.unpushed_commits = 0
      ∧ ((oracle (logCmdUnmerged r)).exitCode ≠ 0 → rs.unmerged_commits = 0)
      ∧ (Repo.status r true oracle).2.warnings.length = 1 := by
  obtain ⟨rs, hok, hex, hu, hc, hA, hB, hC⟩ := status_exists_spec r oracle h0
  by_cases hq1 : (oracle (logCmdUnmerged r)).exitCode = 0
  · have hq2 : (oracle (logCmdUnpushed r)).exitCode ≠ 0 := by
      rcases h1 with h | h
      · exact absurd hq1 h
      · exact h
    obtain ⟨hm, hp, hw⟩ := hB hq1 hq2
    exact ⟨rs, hok, hp, fun hc2 => absurd hq1 hc2, hw⟩
  · obtain ⟨hm, hp, hw⟩ := hA hq1
    exact ⟨rs, hok, hp, fun _ => hm, hw⟩

/-- Witness for claim C2: a concrete repository and oracle whose first
range query fails with exit code 1; the theorem applies and every
hypothesis is discharged by evaluation. -/
theorem c2_divergence_failure_tolerated_witness :
    ((oracleC2w (statusCmd repoPlain)).exitCode = 0
      ∧ ((oracleC2w (logCmdUnmerged repoPlain)).exitCode ≠ 0
          ∨ (oracleC2w (logCmdUnpushed repoPlain)).exitCode ≠ 0))
    ∧ (∃ rs : RepoStatus,
        (Repo.status repoPlain true oracleC2w).1 = Except.ok rs
        ∧ rs.unpushed_commits = 0
        ∧ ((oracleC2w (logCmdUnmerged repoPlain)).exitCode ≠ 0 → rs.unmerged_commits = 0)
        ∧ (Repo.status repoPlain true oracleC2w).2.warnings.length = 1) :=
  ⟨⟨by decide, Or.inl (by decide)⟩,
   c2_divergence_failure_tolerated repoPlain oracleC2w (by decide) (Or.inl (by decide))⟩

/-- Counterexample for claim C2 as stated: an oracle for which the first
range query succeeds with three commit markers and the second fails.
`status()` returns successfully with one warning, but
`unmerged_commits = 3`, not the claimed zero default. -/
theorem c2_counterexample :
    (oracleC2ce (logCmdUnpushed repoPlain)).exitCode ≠ 0
    ∧ (Repo.status repoPlain true oracleC2ce).1 =
        Except.ok { existsFlag := true, untracked_files := 0, uncommited_changes := 0,
                    unpushed_commits := 0, unmerged_commits := 3 }
    ∧ (Repo.status repoPlain true oracleC2ce).2.warnings.length = 1 :=
  ⟨by decide, rfl, rfl⟩

/-- Claim C3 (code bug): for a repository of either class whose local path
does not exist and whose settings lack `origin`, `clone()` does fail
before any subprocess is invoked (the trace is empty), but not with the
claimed configuration error naming the repository: evaluating the
undefined identifier `RepoMessage` raises `NameError`, which the command
dispatcher (which only catches `UserMessage`) does not handle. -/
theorem c3_clone_no_origin_nameerror :
    Repo.clone repoNoOrigin false oracleQuiet =
      (Except.error (PyError.nameError "RepoMessage"), Trace.empty)
    ∧ Repo.clone repoNoOriginSvn false oracleQuiet =
      (Except.error (PyError.nameError "RepoMessage"), Trace.empty) := ⟨rfl, rfl⟩

/-- Claim C4 (code bug): for an SvnBridge repository whose local path does
not exist and whose declared branch is not `master`, `clone()` does fail
without invoking the external executable (the trace is empty), but with a
`NameError` from the undefined identifier `RepoMessage` instead of the
claimed configuration error. -/
theorem c4_svn_clone_branch_nameerror :
    repoSvnBranch.main_branch = "devel"
    ∧ Repo.clone repoSvnBranch false oracleQuiet =
      (Except.error (PyError.nameError "RepoMessage"), Trace.empty) := ⟨rfl, rfl⟩

/-- Claim C5 (amended): for every existing repository whose working-tree
status query succeeds, `status()` partitions the output lines so that
`untracked_files` is the number of lines whose first two characters are
`??` and `uncommited_changes` is the number of all other lines — including
empty lines, not only non-empty ones as the frozen claim says (see
`c5_counterexample`).  The witness instantiates the claim's example
`["?? a.txt", " M b.txt", "?? c.txt"] ↦ (2, 1)`. -/
theorem c5_status_partition (r : Repo) (oracle : Oracle)
    (h0 : (oracle (statusCmd r)).exitCode = 0) :
    ∃ rs : RepoStatus,
      (Repo.status r true oracle).1 = Except.ok rs
      ∧ rs.untracked_files =
          (pySplitlines (oracle (statusCmd r)).stdout).countP isUntrackedLine
      ∧ rs.uncommited_changes =
          (pySplitlines (oracle (statusCmd r)).stdout).countP
            (fun l => !isUntrackedLine l) := by
  obtain ⟨rs, hok, _, hu, hc, _, _, _⟩ := status_exists_spec r oracle h0
  exact ⟨rs, hok, hu, hc⟩

/-- Witness for claim C5: the claim's own example output
`"?? a.txt\n M b.txt\n?? c.txt"`; the theorem applies with its hypothesis
discharged by evaluation, and the counts evaluate to
`untracked_files = 2`, `uncommited_changes = 1`. -/
theorem c5_status_partition_witness :
    ((oracleC5w (statusCmd repoPlain)).exitCode = 0)
    ∧ (∃ rs : RepoStatus,
        (Repo.status repoPlain true oracleC5w).1 = Except.ok rs
        ∧ rs.untracked_files =
            (pySplitlines (oracleC5w (statusCmd repoPlain)).stdout).countP isUntrackedLine
        ∧ rs.uncommited_changes =
            (pySplitlines (oracleC5w (statusCmd repoPlain)).stdout).countP
              (fun l => !isUntrackedLine l))
    ∧ (Repo.status repoPlain true oracleC5w).1 =
        Except.ok { existsFlag := true, untracked_files := 2, uncommited_changes := 1,
                    unpushed_commits := 0, unmerged_commits := 0 } :=
  ⟨by decide, c5_status_partition repoPlain oracleC5w (by decide), rfl⟩

/-- Counterexample for claim C5 as stated: on the status output
`"?? a.txt\n\n M b.txt"` the code counts the interior empty line as an
uncommitted change (`uncommited_changes = 2`), while the number of
non-empty non-untracked lines is 1. -/
theorem c5_counterexample :
    (Repo.status repoPlain true oracleC5ce).1 =
      Except.ok { existsFlag := true, untracked_files := 1, uncommited_changes := 2,
                  unpushed_commits := 0, unmerged_commits := 0 }
    ∧ ((pySplitlines "?? a.txt\n\n M b.txt").filter
          (fun l => !isUntrackedLine l && !(l == ""))).length = 1 := ⟨rfl, rfl⟩

/-- Claim C6: `clone()` is idempotent — for every repository (either
class) whose local path already exists, `clone()` returns without error
and with an empty trace, so no subprocess is invoked; a second `clone()`
after a successful one is a silent no-op. -/
theorem c6_clone_idempotent (r : Repo) (oracle : Oracle) :
    Repo.clone r true oracle = (Except.ok (), Trace.empty) := by
  obtain ⟨tp, p, cfg, k⟩ := r
  cases k <;> rfl

/-- Claim C7 (amended): under the strict failure policy a non-zero exit
code raises a command-failure error carrying the full command line, the
exit code and the captured (newline-stripped) stderr, and on a zero exit
any captured stderr is forwarded unmodified to the diagnostic stream;
under the tolerant policy a non-zero exit returns the
`(exit_code, stdout)` pair to the caller instead of raising.  (The frozen
claim says the runner returns the triple `(exitCode, stdout, stderr)`;
the code never returns stderr — see `c7_counterexample`.) -/
theorem c7_call_contract (r : Repo) (oracle : Oracle) (args : List String)
    (cs ce : Bool) :
    ((oracle (gitCmd r args)).exitCode ≠ 0 →
      Repo.call r oracle args cs ce false =
        (Except.error (PyError.userMessage
            (cmdFailedMsg (gitCmd r args) (oracle (gitCmd r args)).exitCode
              (if ce then rstripNewlines (oracle (gitCmd r args)).stderr else "")) none),
         { invocations := [gitCmd r args] }))
    ∧ ((oracle (gitCmd r args)).exitCode = 0 →
      Repo.call r oracle args cs ce false =
        (Except.ok (CallValue.out (if cs then some (oracle (gitCmd r args)).stdout else none)),
         { invocations := [gitCmd r args],
           forwardedStderr := if ce then [(oracle (gitCmd r args)).stderr] else [] }))
    ∧ Repo.call r oracle args cs ce true =
        (Except.ok (CallValue.pair (oracle (gitCmd r args)).exitCode
            (if cs then some (oracle (gitCmd r args)).stdout else none)),
         { invocations := [gitCmd r args] }) :=
  ⟨call_err r oracle args cs ce, call_ok r oracle args cs ce, call_mayFail r oracle args cs ce⟩

/-- Witness for claim C7: a concrete failing oracle (exit code 2); the
strict branch of the theorem applies with its hypothesis discharged by
evaluation. -/
theorem c7_call_contract_witness :
    ((oracleFailing (gitCmd repoPlain ["fetch"])).exitCode ≠ 0)
    ∧ Repo.call repoPlain oracleFailing ["fetch"] true true false =
        (Except.error (PyError.userMessage
            (cmdFailedMsg (gitCmd repoPlain ["fetch"])
              (oracleFailing (gitCmd repoPlain ["fetch"])).exitCode
              (if true then
                rstripNewlines (oracleFailing (gitCmd repoPlain ["fetch"])).stderr
               else "")) none),
         { invocations := [gitCmd repoPlain ["fetch"]] }) :=
  ⟨by decide, (c7_call_contract repoPlain oracleFailing ["fetch"] true true).1 (by decide)⟩

/-- Counterexample for claim C7 as stated: two oracles that differ only
in the stderr they produce yield literally equal results from the
tolerant-mode runner, so the returned value cannot contain the claimed
stderr component — the runner returns only `(exit_code, stdout)`. -/
theorem c7_counterexample :
    Repo.call repoPlain oracleStderrA ["fetch"] true true true
      = Repo.call repoPlain oracleStderrB ["fetch"] true true true
    ∧ (oracleStderrA (gitCmd repoPlain ["fetch"])).stderr
        ≠ (oracleStderrB (gitCmd repoPlain ["fetch"])).stderr := ⟨rfl, by decide⟩

/-- Claim C8: every invocation of the external executable carries the
fixed pair of path-scoping arguments (`--work-tree=…`, `--git-dir=…`)
prepended to its argument list, except exactly when the subcommand is one
of the two clone forms (first argument `clone`, or first two arguments
`svn clone`), in which case both are omitted. -/
theorem c8_scoping (r : Repo) (oracle : Oracle) (args : List String)
    (cs ce mf : Bool) (hne : args ≠ []) :
    (Repo.call r oracle args cs ce mf).2.invocations =
      [if args.take 1 = ["clone"] ∨ args.take 2 = ["svn", "clone"] then
         "git" :: args
       else
         "git" :: ("--work-tree=" ++ r.path) ::
           ("--git-dir=" ++ osPathJoin r.path ".git") :: args] := by
  rw [call_invocations]
  cases args with
  | nil => exact absurd rfl hne
  | cons a tl =>
    rw [gitCmd_cons]
    by_cases h : a = "clone" ∨ (a :: tl).take 2 = ["svn", "clone"]
    · rw [if_pos h, if_pos (by simpa using h)]
    · rw [if_neg h, if_neg (by simpa using h)]

/-- Witness for claim C8: instantiation at the non-clone argument list
`["fetch"]`, with the non-emptiness hypothesis discharged by
evaluation. -/
theorem c8_scoping_witness :
    ((["fetch"] : List String) ≠ [])
    ∧ (Repo.call repoPlain oracleQuiet ["fetch"] false true false).2.invocations =
      [if (["fetch"] : List String).take 1 = ["clone"]
          ∨ (["fetch"] : List String).take 2 = ["svn", "clone"] then
         "git" :: ["fetch"]
       else
         "git" :: ("--work-tree=" ++ repoPlain.path) ::
           ("--git-dir=" ++ osPathJoin repoPlain.path ".git") :: ["fetch"]] :=
  ⟨by decide, c8_scoping repoPlain oracleQuiet ["fetch"] false true false (by decide)⟩

/-- Claim C9: `fetch()` is a no-op (empty trace, no subprocess) for every
repository whose local path does not exist; for an existing repository it
invokes exactly the backend's fetch subcommand (`fetch` for Standard,
`svn fetch` for SvnBridge) and never a clone invocation; consequently
`Main.fetch` with `cloneIfNecessary = false` never invokes the clone
subcommand for any repository in the registry. -/
theorem c9_fetch_never_clones :
    (∀ (r : Repo) (oracle : Oracle),
      Repo.fetch r false oracle = (Except.ok (), Trace.empty))
    ∧ (∀ (r : Repo) (oracle : Oracle),
        (Repo.fetch r true oracle).2.invocations =
          [gitCmd r (match r.kind with | .git => ["fetch"] | .gitSvn => ["svn", "fetch"])]
        ∧ ∀ cmd ∈ (Repo.fetch r true oracle).2.invocations,
            isCloneInvocation cmd = false)
    ∧ (∀ (ws : List RepoWorld) (cmd : List String),
        cmd ∈ (Main.fetch ws false).2.invocations → isCloneInvocation cmd = false) := by
  refine ⟨fun r oracle => rfl, fun r oracle => ⟨fetch_true_invocations r oracle, ?_⟩,
    fun ws cmd hmem => mainFetch_no_clone ws cmd hmem⟩
  intro cmd hmem
  rw [fetch_true_invocations] at hmem
  rcases List.mem_singleton.mp hmem with rfl
  cases hk : r.kind
  · exact isClone_fetchCmd r
  · exact isClone_svnFetchCmd r

/-- Witness for claim C9: the membership hypothesis of the fleet-level
part is discharged by evaluating `Main.fetch` on a concrete one-element
registry. -/
theorem c9_fetch_never_clones_witness :
    isCloneInvocation (gitCmd repoPlain ["fetch"]) = false :=
  c9_fetch_never_clones.2.2 [{ repo := repoPlain, isdir := true, oracle := oracleQuiet }]
    (gitCmd repoPlain ["fetch"]) (by decide)

/-- Claim C10: the partitioning step of `status()` is total and counts
each line exactly once, so `untracked_files + uncommited_changes` equals
the total number of lines; a line counts as untracked exactly when its
first two characters are `??`, and every other line — including the empty
line and lines shorter than two characters, as witnessed by the final two
conjuncts — is counted as an uncommitted change. -/
theorem c10_partition_total :
    (∀ lines : List String,
      (lines.foldl countStatusLine {}).untracked_files
          + (lines.foldl countStatusLine {}).uncommited_changes = lines.length
      ∧ (lines.foldl countStatusLine {}).untracked_files = lines.countP isUntrackedLine
      ∧ (lines.foldl countStatusLine {}).uncommited_changes =
          lines.countP (fun l => !isUntrackedLine l))
    ∧ isUntrackedLine "" = false ∧ isUntrackedLine "?" = false := by
  refine ⟨fun lines => ?_, rfl, rfl⟩
  rw [foldl_countStatusLine]
  refine ⟨?_, by simp, by simp⟩
  simp [countP_add_countP_not]
